import Mathlib

/-!
# Verification of the Chakravyuh trendline drawing engine (`ChartManager.js`)

This file gives a shallow embedding of the canonical `ChartManager` class
(the trendline drawing / hover / drag controller layered on the
lightweight-charts surface) and proves, or refutes, the specified
properties of its gesture state machine.

JavaScript numbers are modelled by `JSNum`: a rational payload plus the
special values `nan`, `inf`, `ninf`, and the two non-number values `nullv`
(JS `null`) and `undef` (JS `undefined`), which participate in arithmetic
through the usual `ToNumber` coercion (`null ↦ 0`, `undefined ↦ NaN`).
The host chart (series factory, `coordinateToPrice`, visible price range,
and the possibility that the host throws from `setData`) is a parameter
`Env`.  The chart-side state additionally records a ghost log `calls` of
every `setData` invocation performed on a primitive, so that "data D was
passed to the primitive" is directly statable.
-/

set_option autoImplicit false

/-- Model of a JavaScript number-ish value: a finite rational, `NaN`,
`Infinity`, `-Infinity`, `null` or `undefined`. -/
inductive JSNum where
  | fin (q : ℚ)
  | nan
  | inf
  | ninf
  | nullv
  | undef
deriving DecidableEq

namespace JSNum

/-- Abbreviation for a finite JS number literal. -/
abbrev jn (q : ℚ) : JSNum := JSNum.fin q

/-- JS `ToNumber` coercion as applied by arithmetic operators:
`null` coerces to `0`, `undefined` to `NaN`; numbers are unchanged. -/
def toNum : JSNum → JSNum
  | nullv => fin 0
  | undef => nan
  | v => v

/-- JS `+` on numbers (after `ToNumber` coercion). -/
def jsAdd (a b : JSNum) : JSNum :=
  match toNum a, toNum b with
  | fin x, fin y => fin (x + y)
  | fin _, inf => inf
  | inf, fin _ => inf
  | fin _, ninf => ninf
  | ninf, fin _ => ninf
  | inf, inf => inf
  | ninf, ninf => ninf
  | _, _ => nan

/-- JS `-` on numbers (after `ToNumber` coercion). -/
def jsSub (a b : JSNum) : JSNum :=
  match toNum a, toNum b with
  | fin x, fin y => fin (x - y)
  | fin _, inf => ninf
  | inf, fin _ => inf
  | fin _, ninf => inf
  | ninf, fin _ => ninf
  | inf, ninf => inf
  | ninf, inf => ninf
  | _, _ => nan

/-- JS `*` on numbers (after `ToNumber` coercion). -/
def jsMul (a b : JSNum) : JSNum :=
  match toNum a, toNum b with
  | fin x, fin y => fin (x * y)
  | fin x, inf => if x = 0 then nan else if 0 < x then inf else ninf
  | inf, fin y => if y = 0 then nan else if 0 < y then inf else ninf
  | fin x, ninf => if x = 0 then nan else if 0 < x then ninf else inf
  | ninf, fin y => if y = 0 then nan else if 0 < y then ninf else inf
  | inf, inf => inf
  | ninf, ninf => inf
  | inf, ninf => ninf
  | ninf, inf => ninf
  | _, _ => nan

/-- JS `/` on numbers (after `ToNumber` coercion); division by zero
produces a signed infinity, `0/0` produces `NaN`. -/
def jsDiv (a b : JSNum) : JSNum :=
  match toNum a, toNum b with
  | fin x, fin y =>
      if y = 0 then (if x = 0 then nan else if 0 < x then inf else ninf)
      else fin (x / y)
  | fin _, inf => fin 0
  | fin _, ninf => fin 0
  | inf, fin y => if y < 0 then ninf else inf
  | ninf, fin y => if y < 0 then inf else ninf
  | _, _ => nan

/-- JS `Math.abs`. -/
def jsAbs (a : JSNum) : JSNum :=
  match toNum a with
  | fin x => fin |x|
  | inf => inf
  | ninf => inf
  | _ => nan

/-- JS `<` comparison: any comparison involving `NaN` is false. -/
def jsLt (a b : JSNum) : Bool :=
  match toNum a, toNum b with
  | fin x, fin y => decide (x < y)
  | fin _, inf => true
  | ninf, fin _ => true
  | ninf, inf => true
  | _, _ => false

/-- JS `<=` comparison: any comparison involving `NaN` is false. -/
def jsLe (a b : JSNum) : Bool :=
  match toNum a, toNum b with
  | fin x, fin y => decide (x ≤ y)
  | fin _, inf => true
  | ninf, fin _ => true
  | ninf, inf => true
  | inf, inf => true
  | ninf, ninf => true
  | _, _ => false

/-- JS `>` comparison. -/
def jsGt (a b : JSNum) : Bool := jsLt b a

/-- JS `>=` comparison. -/
def jsGe (a b : JSNum) : Bool := jsLe b a

/-- JS `Math.min` on two arguments (`NaN` is contagious). -/
def jsMin (a b : JSNum) : JSNum :=
  let a := toNum a
  let b := toNum b
  if a = nan ∨ b = nan then nan else if jsLe a b then a else b

/-- JS `Math.max` on two arguments (`NaN` is contagious). -/
def jsMax (a b : JSNum) : JSNum :=
  let a := toNum a
  let b := toNum b
  if a = nan ∨ b = nan then nan else if jsLe a b then b else a

/-- JS `typeof v === 'number'` (true for `NaN` and the infinities). -/
def typeofNumber : JSNum → Bool
  | fin _ => true
  | nan => true
  | inf => true
  | ninf => true
  | _ => false

/-- JS `isNaN` restricted to the values that pass the `typeof` test. -/
def jsIsNaN : JSNum → Bool
  | nan => true
  | _ => false

/-- JS `isFinite` restricted to the values that pass the `typeof` test. -/
def jsIsFinite : JSNum → Bool
  | fin _ => true
  | _ => false

end JSNum

open JSNum

/-- One point of a line primitive's data array: `{ time, value }` as
passed to lightweight-charts `setData`.  Both fields are raw JS values,
since the controller can (and in one path does) build them from
unvalidated inputs. -/
structure LPoint where
  time : JSNum
  value : JSNum
deriving DecidableEq

/-- Style options of a line series (the subset this controller sets:
`color`, `lineWidth`, `lineStyle`). -/
structure SeriesStyle where
  color : String
  lineWidth : ℚ
  lineStyle : ℚ
deriving DecidableEq

/-- One line series materialized on the chart surface. -/
structure LineSeries where
  id : ℕ
  data : List LPoint
  style : SeriesStyle
deriving DecidableEq

/-- State of the host chart surface: the materialized series, the
chart-level scroll/scale interaction options, a fresh-id counter, the
ghost log of every `setData` call issued to a primitive (id, data), and
whether a deferred `timeScale().fitContent()` has been scheduled. -/
structure ChartState where
  series : List LineSeries
  handleScroll : Bool
  handleScale : Bool
  nextId : ℕ
  calls : List (ℕ × List LPoint)
  fitContentScheduled : Bool
deriving DecidableEq

namespace ChartState

/-- `chart.addLineSeries(style)`: materializes a fresh empty series and
returns its handle. -/
def addLineSeries (c : ChartState) (st : SeriesStyle) : ChartState × ℕ :=
  ({ c with series := c.series ++ [⟨c.nextId, [], st⟩], nextId := c.nextId + 1 },
   c.nextId)

/-- `chart.removeSeries(handle)`. -/
def removeSeries (c : ChartState) (id : ℕ) : ChartState :=
  { c with series := c.series.filter (fun ls => ls.id ≠ id) }

/-- `handle.data()`: the data of the series with the given id, if it is
still materialized. -/
def seriesData (c : ChartState) (id : ℕ) : Option (List LPoint) :=
  (c.series.find? (fun ls => ls.id = id)).map (fun ls => ls.data)

/-- Overwrite the stored data of one series. -/
def writeSeriesData (c : ChartState) (id : ℕ) (d : List LPoint) : ChartState :=
  { c with series := c.series.map (fun ls => if ls.id = id then { ls with data := d } else ls) }

/-- `handle.applyOptions({color, lineWidth})` on one series. -/
def applySeriesOptions (c : ChartState) (id : ℕ) (color : String) (w : ℚ) : ChartState :=
  { c with series := c.series.map (fun ls =>
      if ls.id = id then { ls with style := { ls.style with color := color, lineWidth := w } } else ls) }

end ChartState

/-- Outcome of one host `setData` call: the host either accepts the data,
or throws — in which case the series may be left holding an arbitrary
partially-applied value `broken` (the host makes no atomicity promise). -/
inductive SetDataOutcome where
  | ok
  | threw (broken : List LPoint)
deriving DecidableEq

/-- The external collaborators of the controller, as parameters:
`coordinateToPrice` (pixel y ↦ price, which may be `null` or `NaN`),
the price scale's current visible range (`none` models both a `null`
range and a throwing `getVisibleRange`), the host's reaction to each
`setData` payload, and the current clock (`Date.now() / 1000`). -/
structure Env where
  coordinateToPrice : ℚ → JSNum
  visibleRange : Option (ℚ × ℚ)
  setDataOutcome : List LPoint → SetDataOutcome
  nowSec : ℚ

/-- `handle.setData(d)` against the host: logs the call in the ghost
trace, then either stores `d` (host accepted) or stores the host's
partial wreckage and reports that an error was thrown. -/
def chartSetData (env : Env) (c : ChartState) (id : ℕ) (d : List LPoint) :
    ChartState × Bool :=
  let c := { c with calls := c.calls ++ [(id, d)] }
  match env.setDataOutcome d with
  | SetDataOutcome.ok => (c.writeSeriesData id d, false)
  | SetDataOutcome.threw broken => (c.writeSeriesData id broken, true)

/-- A pending start point `{ time, price }` recorded on the first click
of a draw gesture (stored unvalidated, exactly as the source does). -/
structure PricePoint where
  time : JSNum
  price : JSNum
deriving DecidableEq

/-- One OHLCV bar as far as this controller is concerned: the only field
the class ever reads from a bar is `time`. -/
structure Bar where
  time : ℚ
deriving DecidableEq

/-- The whole `ChartManager` instance state: the composed chart surface,
the DOM cursor, and every instance field of the class.
`completedCount` is a ghost counter of `onTrendlineComplete` invocations. -/
structure CMState where
  chart : ChartState
  cursor : String
  xspan : JSNum
  klines : Option (List Bar)
  startPoint : Option PricePoint
  isUpdatingLine : Bool
  isHovered : Bool
  isDragging : Bool
  dragStartPoint : Option (JSNum × JSNum)
  dragStartLineData : Option (List LPoint)
  lastCrosshairPosition : Option (JSNum × JSNum)
  selectedPoint : Option ℕ
  hoverThreshold : ℚ
  activeLine : Option ℕ
  tempLine : Option ℕ
  trendlineMode : Bool
  completedCount : ℕ
deriving DecidableEq

/-- The constructor's field initialization. -/
def initCMState : CMState where
  chart := { series := [], handleScroll := true, handleScale := true,
             nextId := 0, calls := [], fitContentScheduled := false }
  cursor := "default"
  xspan := JSNum.nullv
  klines := none
  startPoint := none
  isUpdatingLine := false
  isHovered := false
  isDragging := false
  dragStartPoint := none
  dragStartLineData := none
  lastCrosshairPosition := none
  selectedPoint := none
  hoverThreshold := 2
  activeLine := none
  tempLine := none
  trendlineMode := false
  completedCount := 0

/-- A click / crosshair event delivered by the host chart:
`time` (a timestamp, or absent), `logical` (a bar index, or`undefined`),
and `point` (the pixel y coordinate, or absent). -/
structure MouseEventParams where
  time : Option ℚ
  logical : JSNum
  point : Option ℚ
deriving DecidableEq

namespace ChartManager

/-- `isValidTime(time)`: `typeof time === 'number' && !isNaN(time) &&
isFinite(time) && time > 0`. -/
def isValidTime (t : JSNum) : Bool :=
  typeofNumber t && !jsIsNaN t && jsIsFinite t && jsGt t (jn 0)

/-- `isValidPrice(price)`: same shape as `isValidTime`. -/
def isValidPrice (p : JSNum) : Bool :=
  typeofNumber p && !jsIsNaN p && jsIsFinite p && jsGt p (jn 0)

/-- `this.klines?.[0]?.time`: `undefined` when `klines` is unset or empty. -/
def klinesFirstTime (s : CMState) : JSNum :=
  match s.klines with
  | some (b :: _) => jn b.time
  | _ => JSNum.undef

/-- `setData(data)`: caches the bars and derives
`xspan = data.map(d => d.time).map((d,i,arr) => i ? arr[i]-arr[i-1] : 0)[2]`,
i.e. the delta between the 3rd and 2nd bar (or `undefined` when fewer
than three bars are given). -/
def setData (s : CMState) (bars : List Bar) : CMState :=
  { s with
    klines := some bars
    xspan := match (bars.map Bar.time).get? 1, (bars.map Bar.time).get? 2 with
             | some t1, some t2 => jn (t2 - t1)
             | _, _ => JSNum.undef }

/-- `param.time ?? (this.klines?.[0]?.time + param.logical * this.xspan)`:
the x coordinate of an event, extrapolated through `xspan` when the host
reports only a logical index. -/
def resolveX (s : CMState) (param : MouseEventParams) : JSNum :=
  match param.time with
  | some t => jn t
  | none => jsAdd (klinesFirstTime s) (jsMul param.logical s.xspan)

/-- `clampTime(time)`: an invalid candidate falls back to
`this.klines?.[0]?.time || Date.now() / 1000`; a valid one passes through. -/
def clampTime (env : Env) (s : CMState) (t : JSNum) : JSNum :=
  if !isValidTime t then
    match klinesFirstTime s with
    | JSNum.fin t0 => if t0 = 0 then jn env.nowSec else jn t0
    | _ => jn env.nowSec
  else t

/-- `clampPrice(price)`: an invalid candidate becomes `1`; a valid one is
clamped into the visible price range expanded by a 50% buffer when the
price scale exposes a range, and floored at `0.0001` otherwise. -/
def clampPrice (env : Env) (p : JSNum) : JSNum :=
  if !isValidPrice p then jn 1
  else
    match env.visibleRange with
    | some (minPrice, maxPrice) =>
        let buffer := (maxPrice - minPrice) * (1 / 2)
        jsMax (jn (minPrice - buffer)) (jsMin (jn (maxPrice + buffer)) p)
    | none => jsMax (jn (1 / 10000)) p

/-- `isValidLineData(lineData)`: at least two points, every point's time
and value valid, and times strictly ascending (`lineData[i].time <=
lineData[i-1].time` rejects). -/
def isValidLineData (d : List LPoint) : Bool :=
  if d.length < 2 then false
  else
    d.all (fun pt => isValidTime pt.time && isValidPrice pt.value) &&
    (d.zip d.tail).all (fun ab => !jsLe ab.2.time ab.1.time)

/-- The dashed preview style created on the first click. -/
def tempStyle : SeriesStyle := ⟨"rgba(54, 162, 235, 0.8)", 2, 1⟩

/-- The solid style of a finalized trendline. -/
def finalStyle : SeriesStyle := ⟨"dodgerblue", 2, 0⟩

/-- `handleChartClick(param)`.  First effective click records the start
point and creates the dashed preview series; second effective click
removes the preview, materializes the final line, pushes
`[startPoint, clickPoint]` to it via `setData` (unvalidated and in click
order), resets the gesture state and fires the completion callback.
When the host throws from that `setData`, the exception propagates out
of the handler, so the trailing state resets do not run.  Reading
`param.point.y` with `point` absent would throw before any mutation. -/
def handleChartClick (env : Env) (s : CMState) (param : MouseEventParams) : CMState :=
  if !s.trendlineMode || s.isUpdatingLine || s.isDragging then s
  else
    match param.point with
    | none => s
    | some py =>
      let xTs := resolveX s param
      let yPrice := env.coordinateToPrice py
      match s.startPoint with
      | none =>
          let (c, tid) := s.chart.addLineSeries tempStyle
          { s with startPoint := some ⟨xTs, yPrice⟩, chart := c, tempLine := some tid }
      | some sp =>
          let s :=
            match s.tempLine with
            | some tid => { s with chart := s.chart.removeSeries tid, tempLine := none }
            | none => s
          let (c, aid) := s.chart.addLineSeries finalStyle
          let lineData := [⟨sp.time, sp.price⟩, ⟨xTs, yPrice⟩]
          let (c2, didThrow) := chartSetData env c aid lineData
          if didThrow then
            { s with chart := c2, activeLine := some aid }
          else
            { s with chart := c2, activeLine := some aid,
                     startPoint := none, selectedPoint := none,
                     trendlineMode := false, completedCount := s.completedCount + 1 }

/-- `updateTempLine(xTs, yPrice)`: live preview update during a pending
draw gesture.  Validates the inputs, orders the two endpoints by time,
re-validates the assembled array, and only then pushes it to the preview
primitive inside a `try`/`catch`/`finally`. -/
def updateTempLine (env : Env) (s : CMState) (xTs yPrice : JSNum) : CMState :=
  match s.tempLine, s.startPoint with
  | some tid, some sp =>
      if !(isValidTime xTs && isValidPrice yPrice) then s
      else
        let startTime := sp.time
        let endTime := xTs
        let lineData :=
          if jsLe startTime endTime then
            [⟨startTime, sp.price⟩, ⟨endTime, yPrice⟩]
          else
            [⟨endTime, yPrice⟩, ⟨startTime, sp.price⟩]
        if !isValidLineData lineData then s
        else
          let (c, _) := chartSetData env s.chart tid lineData
          { s with chart := c, isUpdatingLine := false }
  | _, _ => s

/-- `startHover()`: flags hover, switches the cursor to a pointer,
disables chart pan/zoom, and highlights the active line. -/
def startHover (s : CMState) : CMState :=
  let s := { s with isHovered := true, cursor := "pointer",
                    chart := { s.chart with handleScroll := false, handleScale := false } }
  match s.activeLine with
  | some aid => { s with chart := s.chart.applySeriesOptions aid "orange" 3 }
  | none => s

/-- `endHover()`: the exact reverse of `startHover`. -/
def endHover (s : CMState) : CMState :=
  let s := { s with isHovered := false, cursor := "default",
                    chart := { s.chart with handleScroll := true, handleScale := true } }
  match s.activeLine with
  | some aid => { s with chart := s.chart.applySeriesOptions aid "dodgerblue" 2 }
  | none => s

/-- `isLineHovered(xTs, yPrice, point1, point2)`.  Returns `true`
unconditionally while dragging.  Otherwise hit-tests the two endpoints
(within `xspan * 5` in time and `value * hoverThreshold / 100` in price,
recording the hit endpoint in `selectedPoint`), then — after resetting
`selectedPoint` to `null` — hit-tests the interpolated segment when the
cursor time lies inside the line's time range.  The mutation of
`selectedPoint` is part of the return value (state, hovered). -/
def isLineHovered (s : CMState) (xTs yPrice : JSNum)
    (point1 point2 : Option LPoint) : CMState × Bool :=
  if s.isDragging then (s, true)
  else
    match point1, point2 with
    | some p1, some p2 =>
        let near : LPoint → Bool := fun pt =>
          let timeDiff := jsAbs (jsSub xTs pt.time)
          let priceDiff := jsAbs (jsSub yPrice pt.value)
          let priceThreshold := jsDiv (jsMul pt.value (jn s.hoverThreshold)) (jn 100)
          let timeThreshold := jsMul s.xspan (jn 5)
          jsLe timeDiff timeThreshold && jsLe priceDiff priceThreshold
        if near p1 then ({ s with selectedPoint := some 0 }, true)
        else if near p2 then ({ s with selectedPoint := some 1 }, true)
        else
          let s := { s with selectedPoint := none }
          let minTime := jsMin p1.time p2.time
          let maxTime := jsMax p1.time p2.time
          if jsGe xTs minTime && jsLe xTs maxTime then
            let slope := jsDiv (jsSub p2.value p1.value) (jsSub p2.time p1.time)
            let estimatedY := jsAdd p1.value (jsMul slope (jsSub xTs p1.time))
            let priceDiff := jsAbs (jsSub yPrice estimatedY)
            let priceThreshold := jsDiv (jsMul estimatedY (jn s.hoverThreshold)) (jn 100)
            (s, jsLe priceDiff priceThreshold)
          else (s, false)
    | _, _ => (s, false)

/-- `handleHoverEffect(xTs, yPrice)`: runs the hit test against the
active line's current data and fires the hover enter/exit transitions
(`endHover` is suppressed while dragging). -/
def handleHoverEffect (s : CMState) (xTs yPrice : JSNum) : CMState :=
  match s.activeLine with
  | none => s
  | some aid =>
      match s.chart.seriesData aid with
      | none => s
      | some d =>
          if d.length < 2 then s
          else
            match d with
            | p1 :: p2 :: _ =>
                let (s, hovered) := isLineHovered s xTs yPrice (some p1) (some p2)
                if hovered && !s.isHovered then startHover s
                else if !hovered && s.isHovered && !s.isDragging then endHover s
                else s
            | _ => s

/-- `startDrag(xTs, yPrice)`: begins a drag from the last crosshair
position, snapshotting the active line's current data. -/
def startDrag (s : CMState) (x y : JSNum) : CMState :=
  match s.activeLine with
  | none => s
  | some aid =>
      let s := { s with isDragging := true, dragStartPoint := some (x, y) }
      match s.chart.seriesData aid with
      | some d => { s with dragStartLineData := some d }
      | none => s

/-- `endDrag()`: unconditional reset of the drag gesture. -/
def endDrag (s : CMState) : CMState :=
  { s with isDragging := false, dragStartPoint := none,
           dragStartLineData := none, selectedPoint := none }

/-- `handleMouseDown()`: seeds a drag from `lastCrosshairPosition`, only
when a line is hovered and draw mode is off. -/
def handleMouseDown (s : CMState) : CMState :=
  match s.lastCrosshairPosition with
  | none => s
  | some (x, y) =>
      if !s.isHovered || s.trendlineMode then s
      else startDrag s x y

/-- `handleMouseUp()`. -/
def handleMouseUp (s : CMState) : CMState := endDrag s

/-- `dragLine(newCords)`: validated push of a drag update to the active
line inside `try`/`catch`/`finally`; on a host throw the primitive is
re-set to the pre-drag snapshot (when that snapshot exists and is
valid), and a throw from the revert itself is also swallowed. -/
def dragLine (env : Env) (s : CMState) (newCords : List LPoint) : CMState :=
  match s.activeLine with
  | none => s
  | some aid =>
      if !isValidLineData newCords then s
      else
        let (c, didThrow) := chartSetData env s.chart aid newCords
        if !didThrow then { s with chart := c, isUpdatingLine := false }
        else
          match s.dragStartLineData with
          | some snap =>
              if isValidLineData snap then
                let (c2, _) := chartSetData env c aid snap
                { s with chart := c2, isUpdatingLine := false }
              else { s with chart := c, isUpdatingLine := false }
          | none => { s with chart := c, isUpdatingLine := false }

/-- The per-point displacement map of the drag branch of
`handleCrosshairMove`: the grabbed endpoint (or both endpoints on a
whole-line grab) is shifted by the pointer delta, and every produced
coordinate is passed through `clampTime` / `clampPrice`. -/
def computeDragData (env : Env) (s : CMState) (dsp : JSNum × JSNum)
    (dsld : List LPoint) (xTs yPrice : JSNum) : List LPoint :=
  let deltaX := jsSub xTs dsp.1
  let deltaY := jsSub yPrice dsp.2
  dsld.enum.map (fun ip =>
    let i := ip.1
    let point := ip.2
    let tShift := match s.selectedPoint with
                  | some j => if i = j then deltaX else jn 0
                  | none => deltaX
    let vShift := match s.selectedPoint with
                  | some j => if i = j then deltaY else jn 0
                  | none => deltaY
    ⟨clampTime env s (jsAdd point.time tShift),
     clampPrice env (jsAdd point.value vShift)⟩)

/-- The middle stage of `handleCrosshairMove`: mid-draw-gesture the
preview is live-updated; otherwise, outside draw mode, hover detection
runs. -/
def crosshairMidStage (env : Env) (s : CMState) (xTs yPrice : JSNum) : CMState :=
  if s.trendlineMode && s.startPoint.isSome && s.tempLine.isSome then
    updateTempLine env s xTs yPrice
  else if !s.trendlineMode then
    handleHoverEffect s xTs yPrice
  else s

/-- The final stage of `handleCrosshairMove`: while a drag is in
progress, the displaced line data is computed from the pre-drag snapshot
and pushed through `dragLine` when it is still valid.  Reading
`dragStartPoint.x` with a `null` `dragStartPoint` would throw, aborting
the handler with the earlier mutations already applied. -/
def crosshairDragStage (env : Env) (s : CMState) (xTs yPrice : JSNum) : CMState :=
  if s.isDragging && s.activeLine.isSome then
    match s.dragStartPoint, s.dragStartLineData with
    | some dsp, some dsld =>
        if isValidLineData (computeDragData env s dsp dsld xTs yPrice) then
          dragLine env s (computeDragData env s dsp dsld xTs yPrice)
        else s
    | _, _ => s
  else s

/-- `handleCrosshairMove(param)`: resolves and validates the cursor
coordinate, records it as `lastCrosshairPosition`, then runs the
preview/hover stage followed by the drag stage (the source's single
handler body, staged here into `crosshairMidStage` and
`crosshairDragStage`). -/
def handleCrosshairMove (env : Env) (s : CMState) (param : MouseEventParams) : CMState :=
  if s.isUpdatingLine then s
  else
    match param.point with
    | none => s
    | some py =>
      if !(isValidTime (resolveX s param) && isValidPrice (env.coordinateToPrice py)) then s
      else
        crosshairDragStage env
          (crosshairMidStage env
            { s with
              lastCrosshairPosition := some (resolveX s param, env.coordinateToPrice py) }
            (resolveX s param) (env.coordinateToPrice py))
          (resolveX s param) (env.coordinateToPrice py)

/-- `setTrendlineMode(enabled)`: store the flag; on disable, discard the
preview primitive and the pending start point. -/
def setTrendlineMode (s : CMState) (enabled : Bool) : CMState :=
  let s := { s with trendlineMode := enabled }
  if enabled then s
  else
    let s :=
      match s.tempLine with
      | some tid => { s with chart := s.chart.removeSeries tid, tempLine := none }
      | none => s
    { s with startPoint := none }

/-- `deleteSelectedLine()`: effective only when a line exists, is
hovered, and no drag is in progress; removes the primitive, clears the
line-related state, restores interactivity via `endHover`, schedules a
deferred `fitContent`, and reports whether a deletion happened. -/
def deleteSelectedLine (s : CMState) : CMState × Bool :=
  match s.activeLine with
  | some aid =>
      if s.isHovered && !s.isDragging then
        let s := { s with chart := s.chart.removeSeries aid,
                          activeLine := none, startPoint := none,
                          selectedPoint := none, isHovered := false }
        let s := endHover s
        ({ s with chart := { s.chart with fitContentScheduled := true } }, true)
      else (s, false)
  | none => (s, false)

/-- `getActiveTrendlines()`. -/
def getActiveTrendlines (s : CMState) : List ℕ :=
  match s.activeLine with
  | some aid => [aid]
  | none => []

/-- `clearAllTrendlines()`. -/
def clearAllTrendlines (s : CMState) : CMState :=
  let s :=
    match s.activeLine with
    | some aid => { s with chart := s.chart.removeSeries aid, activeLine := none }
    | none => s
  let s :=
    match s.tempLine with
    | some tid => { s with chart := s.chart.removeSeries tid, tempLine := none }
    | none => s
  let s := { s with startPoint := none, selectedPoint := none,
                    isHovered := false, isDragging := false }
  endHover s

end ChartManager

open ChartManager

/-! ## Concrete fixtures

A fully concrete host environment and some concrete runs of the
controller, used below to settle the properties on explicit inputs.
`demoEnv` resolves pixel y directly to that price, exposes no visible
price range, accepts every `setData` payload, and has a fixed clock. -/

/-- A benign concrete host environment. -/
def demoEnv : Env where
  coordinateToPrice := fun py => jn py
  visibleRange := none
  setDataOutcome := fun _ => SetDataOutcome.ok
  nowSec := 1000

/-- Four evenly spaced bars, `xspan = 100`. -/
def demoBars : List Bar := [⟨100⟩, ⟨200⟩, ⟨300⟩, ⟨400⟩]

/-- Controller after construction and `setData(demoBars)`. -/
def demoLoaded : CMState := ChartManager.setData initCMState demoBars

/-- Draw mode switched on. -/
def demoMode1 : CMState := setTrendlineMode demoLoaded true

/-- First draw, first click at `(time 350, price 20)` — note the later
time is clicked first. -/
def demoClick1 : CMState :=
  handleChartClick demoEnv demoMode1 ⟨some 350, JSNum.undef, some 20⟩

/-- First draw, second click at `(time 150, price 10)`: the draw
completes with the clicks in reversed time order. -/
def demoClick2 : CMState :=
  handleChartClick demoEnv demoClick1 ⟨some 150, JSNum.undef, some 10⟩

/-- Draw mode switched on again for a second draw. -/
def demoMode2 : CMState := setTrendlineMode demoClick2 true

/-- Second draw, first click at `(time 100, price 5)`. -/
def demoClick3 : CMState :=
  handleChartClick demoEnv demoMode2 ⟨some 100, JSNum.undef, some 5⟩

/-- Second draw, second click at `(time 400, price 30)`: a second
completed draw gesture. -/
def demoClick4 : CMState :=
  handleChartClick demoEnv demoClick3 ⟨some 400, JSNum.undef, some 30⟩

/-- The finalized-but-now-hovered controller: the state after the first
completed draw with the cursor hovering the line. -/
def demoHovered : CMState := { demoClick2 with isHovered := true }

/-- A pending draw gesture assembled directly: preview series `0` on the
chart, start point `(100, 10)`. -/
def demoPending : CMState :=
  { initCMState with
    tempLine := some 0
    startPoint := some ⟨jn 100, jn 10⟩
    chart := { initCMState.chart with series := [⟨0, [], tempStyle⟩], nextId := 1 } }

/-- A pre-drag snapshot of line `0`. -/
def demoSnap : List LPoint := [⟨jn 100, jn 11⟩, ⟨jn 200, jn 21⟩]

/-- A displaced, perfectly valid drag payload. -/
def demoNewCords : List LPoint := [⟨jn 100, jn 10⟩, ⟨jn 200, jn 20⟩]

/-- A host that throws from `setData` exactly on `demoNewCords`,
leaving the primitive wrecked (empty), and accepts everything else. -/
def demoEnvThrow : Env where
  coordinateToPrice := fun py => jn py
  visibleRange := none
  setDataOutcome := fun d =>
    if d = demoNewCords then SetDataOutcome.threw [] else SetDataOutcome.ok
  nowSec := 1000

/-- A controller mid-drag on line `0` with snapshot `demoSnap`. -/
def demoDragging : CMState :=
  { initCMState with
    activeLine := some 0
    isDragging := true
    isHovered := true
    dragStartPoint := some (jn 150, jn 15)
    dragStartLineData := some demoSnap
    chart := { initCMState.chart with series := [⟨0, demoSnap, finalStyle⟩], nextId := 1 } }

/-- A host whose `coordinateToPrice` resolves every pixel to `NaN`. -/
def demoEnvNaN : Env where
  coordinateToPrice := fun _ => JSNum.nan
  visibleRange := none
  setDataOutcome := fun _ => SetDataOutcome.ok
  nowSec := 1000

/-- A controller whose drag grabbed endpoint `0`. -/
def demoSelected0 : CMState := { initCMState with selectedPoint := some 0 }

/-! ## Properties -/

/-- C1: the claim states that a finalized Trendline is normalized so the
earlier time is first (`data[0].time < data[1].time` regardless of click
order).  Evaluating `handleChartClick` at the failing input — first
click `(time 350, price 20)`, second click `(time 150, price 10)` — the
finalize path passes `[startPoint, clickPoint]` to the primitive in raw
click order: the materialized line holds `[{350,20},{150,10}]`, whose
first time is *not* earlier than its second.  (The preview path
`updateTempLine` does normalize, and `isValidLineData` demands strictly
ascending times, so the unnormalized finalize path is a slip in the
code, not in the claim.) -/
theorem C1_finalize_unnormalized :
    demoClick2.chart.seriesData 1 =
      some [⟨jn 350, jn 20⟩, ⟨jn 150, jn 10⟩] ∧
    demoClick2.chart.calls =
      [(1, [⟨jn 350, jn 20⟩, ⟨jn 150, jn 10⟩])] ∧
    jsLt (jn 350) (jn 150) = false := by
  refine ⟨by decide, by decide, by decide⟩

/-- C2 (counterexample): in the reversed-click run the one and only
`setData` call issued to a primitive carries data that fails
`isValidLineData` — invalid (non-ascending) geometry reaches a
primitive's `setData`, so not every call path validates first. -/
theorem C2_counterexample :
    demoClick2.chart.calls.map (fun c => isValidLineData c.2) = [false] := by
  decide

/-- C3 (counterexample): after two completed draw gestures the chart
surface holds *two* materialized trendline series (ids 1 and 3) — the
second completed draw replaces only the controller's reference, it does
not remove the prior primitive from the chart. -/
theorem C3_counterexample :
    demoClick4.chart.series.map (fun ls => ls.id) = [1, 3] ∧
    getActiveTrendlines demoClick4 = [3] := by
  refine ⟨by decide, by decide⟩

/-- C4 (counterexample): with a pending start point recorded (one click
into a draw), calling `setTrendlineMode(true)` leaves `startPoint` set —
enabling draw mode does not clear a stale pending start point. -/
theorem C4_counterexample :
    (setTrendlineMode demoClick1 true).startPoint = some ⟨jn 350, jn 20⟩ ∧
    (setTrendlineMode demoClick1 true).startPoint ≠ none := by
  refine ⟨by decide, by decide⟩

/-- C4 (amended): `setTrendlineMode(true)` leaves the pending start
point exactly as it was; it is `setTrendlineMode(false)` that clears
`startPoint`. -/
theorem C4_enable_keeps_startPoint (s : CMState) :
    (setTrendlineMode s true).startPoint = s.startPoint ∧
    (setTrendlineMode s false).startPoint = none := by
  unfold setTrendlineMode
  constructor
  · simp
  · cases h : s.tempLine <;> simp [h]

/-- C5: `deleteSelectedLine()` returns `false` and leaves the controller
state and the chart's primitives untouched when no active line exists,
or a drag is in progress, or the line is not hovered; otherwise it
returns `true`, removes the line primitive from the chart, and clears
`activeLine`, `startPoint`, `selectedPoint` and `isHovered`. -/
theorem C5_delete_preconditions (s : CMState) :
    (s.activeLine = none ∨ s.isHovered = false ∨ s.isDragging = true →
      deleteSelectedLine s = (s, false)) ∧
    (∀ aid : ℕ, s.activeLine = some aid → s.isHovered = true → s.isDragging = false →
      (deleteSelectedLine s).2 = true ∧
      (deleteSelectedLine s).1.activeLine = none ∧
      (deleteSelectedLine s).1.startPoint = none ∧
      (deleteSelectedLine s).1.selectedPoint = none ∧
      (deleteSelectedLine s).1.isHovered = false ∧
      ∀ ls ∈ (deleteSelectedLine s).1.chart.series, ls.id ≠ aid) := by
  constructor
  · intro h
    unfold deleteSelectedLine
    rcases h with h | h | h
    · simp [h]
    · cases ha : s.activeLine <;> simp [ha, h]
    · cases ha : s.activeLine <;> simp [ha, h]
  · intro aid ha hh hd
    unfold deleteSelectedLine
    simp only [ha, hh, hd]
    unfold endHover
    simp only [Bool.not_false, Bool.and_self, if_true]
    refine ⟨trivial, trivial, trivial, trivial, trivial, ?_⟩
    intro ls hls
    simp only [ChartState.removeSeries, List.mem_filter] at hls
    simpa using hls.2

/-- Witness for `C5_delete_preconditions`: deleting the hovered line of
the concrete run removes it and clears the line state. -/
theorem C5_delete_preconditions_witness :
    (deleteSelectedLine demoHovered).2 = true ∧
    (deleteSelectedLine demoHovered).1.activeLine = none ∧
    (deleteSelectedLine demoHovered).1.startPoint = none ∧
    (deleteSelectedLine demoHovered).1.selectedPoint = none ∧
    (deleteSelectedLine demoHovered).1.isHovered = false := by
  have h := (C5_delete_preconditions demoHovered).2 1 (by decide) (by decide) (by decide)
  exact ⟨h.1, h.2.1, h.2.2.1, h.2.2.2.1, h.2.2.2.2.1⟩

/-- C8: a crosshair-move event whose resolved time or price fails the
validity checks (`isValidTime` / `isValidPrice`: a number, non-NaN,
finite, positive) leaves the controller state completely unchanged — in
particular no `setData` call is issued to any primitive (the ghost call
log is part of the state) and `lastCrosshairPosition` is not updated. -/
theorem C8_invalid_crosshair_noop (env : Env) (s : CMState)
    (param : MouseEventParams) (py : ℚ)
    (hpt : param.point = some py)
    (hinv : (isValidTime (resolveX s param) &&
             isValidPrice (env.coordinateToPrice py)) = false) :
    handleCrosshairMove env s param = s := by
  unfold handleCrosshairMove
  cases hu : s.isUpdatingLine
  · simp [hpt, hinv]
  · simp [hu]

/-- Witness for `C8_invalid_crosshair_noop`: a host resolving the pixel
to `NaN` price makes the crosshair handler a strict no-op. -/
theorem C8_invalid_crosshair_noop_witness :
    handleCrosshairMove demoEnvNaN initCMState ⟨some 150, JSNum.undef, some 30⟩ =
      initCMState :=
  C8_invalid_crosshair_noop demoEnvNaN initCMState ⟨some 150, JSNum.undef, some 30⟩ 30
    (by decide) (by decide)

/-- C9: disabling draw mode one click into a gesture (pending
`startPoint`, preview line materialized) removes the preview series from
the chart, clears both `startPoint` and `tempLine`, issues no `setData`
call, and leaves `activeLine` untouched — no partial line is committed. -/
theorem C9_disable_mid_gesture (s : CMState) (tid : ℕ) (sp : PricePoint)
    (htemp : s.tempLine = some tid)
    (hstart : s.startPoint = some sp) :
    (setTrendlineMode s false).tempLine = none ∧
    (setTrendlineMode s false).startPoint = none ∧
    (setTrendlineMode s false).chart.series =
      s.chart.series.filter (fun ls => ls.id ≠ tid) ∧
    (setTrendlineMode s false).activeLine = s.activeLine ∧
    (setTrendlineMode s false).chart.calls = s.chart.calls := by
  unfold setTrendlineMode
  simp [htemp, ChartState.removeSeries]

/-- Witness for `C9_disable_mid_gesture`: cancelling the concrete
mid-gesture state after the first reversed click. -/
theorem C9_disable_mid_gesture_witness :
    (setTrendlineMode demoClick1 false).tempLine = none ∧
    (setTrendlineMode demoClick1 false).startPoint = none := by
  have h := C9_disable_mid_gesture demoClick1 0 ⟨jn 350, jn 20⟩ (by decide) (by decide)
  exact ⟨h.1, h.2.1⟩

/-- Helper: if some element of `l` has id `aid`, then after rewriting
that id's data to `d'`, the first hit for `aid` reports data `d'`. -/
theorem find_write_aux (l : List LineSeries) (aid : ℕ) (d' : List LPoint)
    (h : (l.find? (fun ls => ls.id = aid)).isSome) :
    ((l.map (fun ls => if ls.id = aid then { ls with data := d' } else ls)).find?
        (fun ls => ls.id = aid)).map (fun ls => ls.data) = some d' := by
  induction l with
  | nil => simp at h
  | cons hd tl ih =>
      by_cases hid : hd.id = aid
      · simp only [List.map_cons, if_pos hid]
        rw [List.find?_cons_of_pos _ (by simp [hid])]
        simp
      · simp only [List.map_cons, if_neg hid]
        rw [List.find?_cons_of_neg _ (by simp [hid])]
        rw [List.find?_cons_of_neg _ (by simp [hid])] at h
        exact ih h

/-- Helper: overwriting the data of a series that is present on the
chart makes `seriesData` report exactly the new data. -/
theorem seriesData_writeSeriesData (c : ChartState) (aid : ℕ) (d' : List LPoint)
    (h : (c.seriesData aid).isSome) :
    (c.writeSeriesData aid d').seriesData aid = some d' := by
  unfold ChartState.seriesData at h
  unfold ChartState.seriesData ChartState.writeSeriesData
  exact find_write_aux c.series aid d' (by simpa using h)

/-- Helper: overwriting series data does not drop the series. -/
theorem seriesData_isSome_write (c : ChartState) (aid : ℕ) (d' : List LPoint)
    (h : (c.seriesData aid).isSome) :
    ((c.writeSeriesData aid d').seriesData aid).isSome := by
  rw [seriesData_writeSeriesData c aid d' h]
  rfl

/-- C7: when the host throws from the drag update's `setData`, the error
is caught and the active primitive is re-set to the pre-drag snapshot
`dragStartLineData` (not left holding the host's partial wreckage), and
the gesture state — `isDragging`, `dragStartPoint`, `dragStartLineData`,
`selectedPoint` — is untouched by the failure. -/
theorem C7_drag_revert (env : Env) (s : CMState) (aid : ℕ)
    (newCords snap broken : List LPoint)
    (hA : s.activeLine = some aid)
    (hvalid : isValidLineData newCords = true)
    (hthrow : env.setDataOutcome newCords = SetDataOutcome.threw broken)
    (hsnap : s.dragStartLineData = some snap)
    (hsnapvalid : isValidLineData snap = true)
    (hok : env.setDataOutcome snap = SetDataOutcome.ok)
    (hseries : (s.chart.seriesData aid).isSome) :
    (dragLine env s newCords).chart.seriesData aid = some snap ∧
    (dragLine env s newCords).isDragging = s.isDragging ∧
    (dragLine env s newCords).dragStartPoint = s.dragStartPoint ∧
    (dragLine env s newCords).dragStartLineData = s.dragStartLineData ∧
    (dragLine env s newCords).selectedPoint = s.selectedPoint := by
  unfold dragLine chartSetData
  simp only [hA, hvalid, hthrow, hsnap, hsnapvalid, hok, Bool.not_true,
    Bool.false_eq_true, if_false, if_true]
  refine ⟨?_, trivial, trivial, trivial, trivial⟩
  apply seriesData_writeSeriesData
  apply seriesData_isSome_write
  exact hseries

/-- Witness for `C7_drag_revert`: the concrete throwing host wrecks the
primitive on `demoNewCords`, and the controller restores `demoSnap` and
keeps the drag gesture intact. -/
theorem C7_drag_revert_witness :
    (dragLine demoEnvThrow demoDragging demoNewCords).chart.seriesData 0 =
      some demoSnap ∧
    (dragLine demoEnvThrow demoDragging demoNewCords).isDragging = true ∧
    (dragLine demoEnvThrow demoDragging demoNewCords).dragStartLineData =
      some demoSnap := by
  have h := C7_drag_revert demoEnvThrow demoDragging 0 demoNewCords demoSnap []
    (by decide) (by decide) (by decide) (by decide) (by decide) (by decide) (by decide)
  exact ⟨h.1, h.2.1, h.2.2.2.1⟩

/-- Helper: `chartSetData` appends exactly its own payload to the ghost
call log, whatever the host outcome. -/
theorem calls_chartSetData (env : Env) (c : ChartState) (id : ℕ) (d : List LPoint) :
    (chartSetData env c id d).1.calls = c.calls ++ [(id, d)] := by
  unfold chartSetData
  cases env.setDataOutcome d <;> rfl

/-- Helper: booleans — from the negation of `(!b) = true` conclude `b`. -/
theorem not_bang_eq_true {b : Bool} (h : ¬ ((!b) = true)) : b = true := by
  cases b <;> simp_all

/-- Helper: membership in the call log after one `chartSetData`. -/
theorem mem_calls_chartSetData (env : Env) (cst : ChartState) (id : ℕ)
    (d : List LPoint) (c : ℕ × List LPoint)
    (hc : c ∈ (chartSetData env cst id d).1.calls) :
    c ∈ cst.calls ∨ c = (id, d) := by
  rw [calls_chartSetData] at hc
  rcases List.mem_append.mp hc with h | h
  · exact Or.inl h
  · exact Or.inr (List.mem_singleton.mp h)

/-- Helper: booleans — from the negation of `b = true` conclude `(!b) = true`. -/
theorem bang_eq_true_of_not {b : Bool} (h : ¬ (b = true)) : (!b) = true := by
  cases b <;> simp_all

/-- C2 (amended): on the preview path (`updateTempLine`) and the drag
path (`dragLine`) every `setData` call that reaches a primitive carries
data that passed `isValidLineData` — any call found in the log after
these operations was either already there or is valid.  (The finalize
path of `handleChartClick` has no such guard; see the counterexample.) -/
theorem C2_validated_paths (env : Env) (s : CMState) (x y : JSNum)
    (nc : List LPoint) (c : ℕ × List LPoint) :
    (c ∈ (updateTempLine env s x y).chart.calls →
      c ∈ s.chart.calls ∨ isValidLineData c.2 = true) ∧
    (c ∈ (dragLine env s nc).chart.calls →
      c ∈ s.chart.calls ∨ isValidLineData c.2 = true) := by
  constructor
  · intro hc
    unfold updateTempLine at hc
    cases h1 : s.tempLine with
    | none => rw [h1] at hc; exact Or.inl hc
    | some tid =>
      cases h2 : s.startPoint with
      | none => rw [h1, h2] at hc; exact Or.inl hc
      | some sp =>
        rw [h1, h2] at hc
        dsimp only at hc
        by_cases hxy : (isValidTime x && isValidPrice y) = true
        · rw [if_neg (by simp [hxy])] at hc
          by_cases hle : jsLe sp.time x = true
          · rw [if_pos hle] at hc
            by_cases hld : isValidLineData [⟨sp.time, sp.price⟩, ⟨x, y⟩] = true
            · rw [if_neg (by simp [hld])] at hc
              rcases hp : chartSetData env s.chart tid
                  [⟨sp.time, sp.price⟩, ⟨x, y⟩] with ⟨c2, b⟩
              rw [hp] at hc
              dsimp only at hc
              have hcalls : c2.calls =
                  s.chart.calls ++ [(tid, [⟨sp.time, sp.price⟩, ⟨x, y⟩])] := by
                have h := calls_chartSetData env s.chart tid
                  [⟨sp.time, sp.price⟩, ⟨x, y⟩]
                rw [hp] at h
                exact h
              rw [hcalls] at hc
              rcases List.mem_append.mp hc with h | h
              · exact Or.inl h
              · rcases List.mem_singleton.mp h with rfl
                exact Or.inr hld
            · rw [if_pos (bang_eq_true_of_not hld)] at hc
              exact Or.inl hc
          · rw [if_neg hle] at hc
            by_cases hld : isValidLineData [⟨x, y⟩, ⟨sp.time, sp.price⟩] = true
            · rw [if_neg (by simp [hld])] at hc
              rcases hp : chartSetData env s.chart tid
                  [⟨x, y⟩, ⟨sp.time, sp.price⟩] with ⟨c2, b⟩
              rw [hp] at hc
              dsimp only at hc
              have hcalls : c2.calls =
                  s.chart.calls ++ [(tid, [⟨x, y⟩, ⟨sp.time, sp.price⟩])] := by
                have h := calls_chartSetData env s.chart tid
                  [⟨x, y⟩, ⟨sp.time, sp.price⟩]
                rw [hp] at h
                exact h
              rw [hcalls] at hc
              rcases List.mem_append.mp hc with h | h
              · exact Or.inl h
              · rcases List.mem_singleton.mp h with rfl
                exact Or.inr hld
            · rw [if_pos (bang_eq_true_of_not hld)] at hc
              exact Or.inl hc
        · rw [if_pos (bang_eq_true_of_not hxy)] at hc
          exact Or.inl hc
  · intro hc
    unfold dragLine at hc
    cases h1 : s.activeLine with
    | none => rw [h1] at hc; exact Or.inl hc
    | some aid =>
      rw [h1] at hc
      dsimp only at hc
      by_cases hv : isValidLineData nc = true
      · rw [if_neg (by simp [hv])] at hc
        rcases hp : chartSetData env s.chart aid nc with ⟨c2, b⟩
        rw [hp] at hc
        dsimp only at hc
        have hcalls : c2.calls = s.chart.calls ++ [(aid, nc)] := by
          have h := calls_chartSetData env s.chart aid nc
          rw [hp] at h
          exact h
        cases b with
        | false =>
            rw [if_pos (by simp)] at hc
            have hc' : c ∈ c2.calls := hc
            rw [hcalls] at hc'
            rcases List.mem_append.mp hc' with h | h
            · exact Or.inl h
            · rcases List.mem_singleton.mp h with rfl
              exact Or.inr hv
        | true =>
            rw [if_neg (by simp)] at hc
            cases h2 : s.dragStartLineData with
            | none =>
                rw [h2] at hc
                dsimp only at hc
                have hc' : c ∈ c2.calls := hc
                rw [hcalls] at hc'
                rcases List.mem_append.mp hc' with h | h
                · exact Or.inl h
                · rcases List.mem_singleton.mp h with rfl
                  exact Or.inr hv
            | some snap =>
                rw [h2] at hc
                dsimp only at hc
                by_cases hsv : isValidLineData snap = true
                · rw [if_pos hsv] at hc
                  rcases hp2 : chartSetData env c2 aid snap with ⟨c3, b2⟩
                  rw [hp2] at hc
                  dsimp only at hc
                  have hcalls2 : c3.calls = c2.calls ++ [(aid, snap)] := by
                    have h := calls_chartSetData env c2 aid snap
                    rw [hp2] at h
                    exact h
                  rw [hcalls2, hcalls] at hc
                  rcases List.mem_append.mp hc with h | h
                  · rcases List.mem_append.mp h with h2m | h2m
                    · exact Or.inl h2m
                    · rcases List.mem_singleton.mp h2m with rfl
                      exact Or.inr hv
                  · rcases List.mem_singleton.mp h with rfl
                    exact Or.inr hsv
                · rw [if_neg hsv] at hc
                  have hc' : c ∈ c2.calls := hc
                  rw [hcalls] at hc'
                  rcases List.mem_append.mp hc' with h | h
                  · exact Or.inl h
                  · rcases List.mem_singleton.mp h with rfl
                    exact Or.inr hv
      · rw [if_pos (bang_eq_true_of_not hv)] at hc
        exact Or.inl hc

/-- Witness for `C2_validated_paths`: in the concrete pending gesture
the preview update issues one call, and it is valid. -/
theorem C2_validated_paths_witness :
    (0, ([⟨jn 100, jn 10⟩, ⟨jn 200, jn 20⟩] : List LPoint)) ∈
      demoPending.chart.calls ∨
    isValidLineData [⟨jn 100, jn 10⟩, ⟨jn 200, jn 20⟩] = true :=
  (C2_validated_paths demoEnv demoPending (jn 200) (jn 20) []
      (0, [⟨jn 100, jn 10⟩, ⟨jn 200, jn 20⟩])).1 (by decide)

/-- Helper: rewriting one series' data leaves the set of materialized
series ids unchanged. -/
theorem ids_writeSeriesData (c : ChartState) (id : ℕ) (d : List LPoint) :
    (c.writeSeriesData id d).series.map LineSeries.id = c.series.map LineSeries.id := by
  unfold ChartState.writeSeriesData
  simp only [List.map_map]
  congr 1
  funext ls
  by_cases h : ls.id = id <;> simp [h]

/-- Helper: a series with a different id survives `removeSeries`. -/
theorem mem_ids_removeSeries (c : ChartState) (a tid : ℕ) (hne : a ≠ tid)
    (h : a ∈ c.series.map LineSeries.id) :
    a ∈ (c.removeSeries tid).series.map LineSeries.id := by
  unfold ChartState.removeSeries
  simp only [List.mem_map] at h ⊢
  obtain ⟨ls, hls, rfl⟩ := h
  exact ⟨ls, List.mem_filter.mpr ⟨hls, by simpa using hne⟩, rfl⟩

/-- C3 (amended): a completing second click replaces the controller's
active-line *reference* — `getActiveTrendlines` afterwards returns
exactly the freshly created series — but it does not remove the prior
Trendline primitive from the chart surface: the old series (id `a`)
is still materialized after the new draw completes. -/
theorem C3_replace_reference (env : Env) (s : CMState) (param : MouseEventParams)
    (py : ℚ) (sp : PricePoint) (a : ℕ)
    (hmode : s.trendlineMode = true)
    (hupd : s.isUpdatingLine = false)
    (hdrag : s.isDragging = false)
    (hpt : param.point = some py)
    (hsp : s.startPoint = some sp)
    (ha : s.activeLine = some a)
    (hmem : a ∈ s.chart.series.map LineSeries.id)
    (htid : ∀ tid, s.tempLine = some tid → tid ≠ a) :
    getActiveTrendlines (handleChartClick env s param) = [s.chart.nextId] ∧
    a ∈ (handleChartClick env s param).chart.series.map LineSeries.id := by
  unfold handleChartClick
  rw [hmode, hupd, hdrag, hpt, hsp]
  rw [if_neg (by simp)]
  dsimp only
  cases ht : s.tempLine with
  | some tid =>
      dsimp only [ChartState.addLineSeries, chartSetData]
      cases ho : env.setDataOutcome
          [⟨sp.time, sp.price⟩, ⟨resolveX s param, env.coordinateToPrice py⟩] with
      | ok =>
          dsimp only
          rw [if_neg (by simp)]
          constructor
          · rfl
          · dsimp only
            rw [ids_writeSeriesData]
            dsimp only
            rw [List.map_append]
            exact List.mem_append.mpr
              (Or.inl (mem_ids_removeSeries s.chart a tid (Ne.symm (htid tid ht)) hmem))
      | threw broken =>
          dsimp only
          rw [if_pos (show (true : Bool) = true from rfl)]
          constructor
          · rfl
          · dsimp only
            rw [ids_writeSeriesData]
            dsimp only
            rw [List.map_append]
            exact List.mem_append.mpr
              (Or.inl (mem_ids_removeSeries s.chart a tid (Ne.symm (htid tid ht)) hmem))
  | none =>
      dsimp only [ChartState.addLineSeries, chartSetData]
      cases ho : env.setDataOutcome
          [⟨sp.time, sp.price⟩, ⟨resolveX s param, env.coordinateToPrice py⟩] with
      | ok =>
          dsimp only
          rw [if_neg (by simp)]
          constructor
          · rfl
          · dsimp only
            rw [ids_writeSeriesData]
            dsimp only
            rw [List.map_append]
            exact List.mem_append.mpr (Or.inl hmem)
      | threw broken =>
          dsimp only
          rw [if_pos (show (true : Bool) = true from rfl)]
          constructor
          · rfl
          · dsimp only
            rw [ids_writeSeriesData]
            dsimp only
            rw [List.map_append]
            exact List.mem_append.mpr (Or.inl hmem)

/-- Witness for `C3_replace_reference`: completing the concrete second
draw leaves the first finalized line (id 1) materialized next to the
new active line (id 3). -/
theorem C3_replace_reference_witness :
    getActiveTrendlines demoClick4 = [3] ∧
    1 ∈ demoClick4.chart.series.map LineSeries.id := by
  have h := C3_replace_reference demoEnv demoClick3 ⟨some 400, JSNum.undef, some 30⟩
    30 ⟨jn 100, jn 5⟩ 1 (by decide) (by decide) (by decide) rfl (by decide) (by decide)
    (by decide)
    (by
      intro tid hti
      have hx : demoClick3.tempLine = some 2 := by decide
      rw [hx] at hti
      have h2 : (2 : ℕ) = tid := Option.some.inj hti
      omega)
  exact ⟨h.1, h.2⟩

/-- Helper: a primitive `setData` call never touches the chart-level
scroll/scale interaction options. -/
theorem chartSetData_scrollscale (env : Env) (c : ChartState) (id : ℕ) (d : List LPoint) :
    (chartSetData env c id d).1.handleScroll = c.handleScroll ∧
    (chartSetData env c id d).1.handleScale = c.handleScale := by
  unfold chartSetData ChartState.writeSeriesData
  cases env.setDataOutcome d <;> exact ⟨rfl, rfl⟩

/-- Helper: the preview update never touches the hover flag, the cursor,
or the chart's scroll/scale options. -/
theorem updateTempLine_pres (env : Env) (s : CMState) (x y : JSNum) :
    (updateTempLine env s x y).isHovered = s.isHovered ∧
    (updateTempLine env s x y).cursor = s.cursor ∧
    (updateTempLine env s x y).chart.handleScroll = s.chart.handleScroll ∧
    (updateTempLine env s x y).chart.handleScale = s.chart.handleScale := by
  unfold updateTempLine
  cases h1 : s.tempLine with
  | none => exact ⟨rfl, rfl, rfl, rfl⟩
  | some tid =>
    cases h2 : s.startPoint with
    | none => exact ⟨rfl, rfl, rfl, rfl⟩
    | some sp =>
      dsimp only
      by_cases hxy : (isValidTime x && isValidPrice y) = true
      · rw [if_neg (by simp [hxy])]
        by_cases hle : jsLe sp.time x = true
        · rw [if_pos hle]
          by_cases hld : isValidLineData [⟨sp.time, sp.price⟩, ⟨x, y⟩] = true
          · rw [if_neg (by simp [hld])]
            rcases hp : chartSetData env s.chart tid [⟨sp.time, sp.price⟩, ⟨x, y⟩] with ⟨c2, b⟩
            have hs := chartSetData_scrollscale env s.chart tid [⟨sp.time, sp.price⟩, ⟨x, y⟩]
            rw [hp] at hs
            exact ⟨rfl, rfl, hs.1, hs.2⟩
          · rw [if_pos (bang_eq_true_of_not hld)]
            exact ⟨rfl, rfl, rfl, rfl⟩
        · rw [if_neg hle]
          by_cases hld : isValidLineData [⟨x, y⟩, ⟨sp.time, sp.price⟩] = true
          · rw [if_neg (by simp [hld])]
            rcases hp : chartSetData env s.chart tid [⟨x, y⟩, ⟨sp.time, sp.price⟩] with ⟨c2, b⟩
            have hs := chartSetData_scrollscale env s.chart tid [⟨x, y⟩, ⟨sp.time, sp.price⟩]
            rw [hp] at hs
            exact ⟨rfl, rfl, hs.1, hs.2⟩
          · rw [if_pos (bang_eq_true_of_not hld)]
            exact ⟨rfl, rfl, rfl, rfl⟩
      · rw [if_pos (bang_eq_true_of_not hxy)]
        exact ⟨rfl, rfl, rfl, rfl⟩

/-- Helper: a drag push (including a failed one and its revert) never
touches the hover flag, the cursor, or the scroll/scale options. -/
theorem dragLine_pres (env : Env) (s : CMState) (nc : List LPoint) :
    (dragLine env s nc).isHovered = s.isHovered ∧
    (dragLine env s nc).cursor = s.cursor ∧
    (dragLine env s nc).chart.handleScroll = s.chart.handleScroll ∧
    (dragLine env s nc).chart.handleScale = s.chart.handleScale := by
  unfold dragLine
  cases h1 : s.activeLine with
  | none => exact ⟨rfl, rfl, rfl, rfl⟩
  | some aid =>
    dsimp only
    by_cases hv : isValidLineData nc = true
    · rw [if_neg (by simp [hv])]
      rcases hp : chartSetData env s.chart aid nc with ⟨c2, b⟩
      have hs := chartSetData_scrollscale env s.chart aid nc
      rw [hp] at hs
      cases b with
      | false =>
          rw [if_pos (by simp)]
          exact ⟨rfl, rfl, hs.1, hs.2⟩
      | true =>
          rw [if_neg (by simp)]
          cases h2 : s.dragStartLineData with
          | none => exact ⟨rfl, rfl, hs.1, hs.2⟩
          | some snap =>
              dsimp only
              by_cases hsv : isValidLineData snap = true
              · rw [if_pos hsv]
                rcases hp2 : chartSetData env c2 aid snap with ⟨c3, b2⟩
                have hs2 := chartSetData_scrollscale env c2 aid snap
                rw [hp2] at hs2
                exact ⟨rfl, rfl, hs2.1.trans hs.1, hs2.2.trans hs.2⟩
              · rw [if_neg hsv]
                exact ⟨rfl, rfl, hs.1, hs.2⟩
    · rw [if_pos (bang_eq_true_of_not hv)]
      exact ⟨rfl, rfl, rfl, rfl⟩

/-- Helper: while a drag is in progress on a hovered line, hover
detection is a strict no-op — `isLineHovered` answers `true`
unconditionally, so neither `startHover` nor `endHover` can fire. -/
theorem handleHoverEffect_of_dragging (s : CMState) (x y : JSNum)
    (hd : s.isDragging = true) (hh : s.isHovered = true) :
    handleHoverEffect s x y = s := by
  unfold handleHoverEffect
  cases ha : s.activeLine with
  | none => rfl
  | some aid =>
    dsimp only
    cases hs : s.chart.seriesData aid with
    | none => rfl
    | some d =>
      dsimp only
      by_cases hl : d.length < 2
      · rw [if_pos hl]
      · rw [if_neg hl]
        cases d with
        | nil => exact absurd (by simp) hl
        | cons p1 d2 =>
          cases d2 with
          | nil => exact absurd (by simp) hl
          | cons p2 rest =>
            dsimp only
            simp [isLineHovered, hd, hh]

/-- Helper: under an in-progress drag on a hovered line, the middle
(preview/hover) stage of the crosshair handler leaves the hover flag,
cursor and scroll/scale options untouched. -/
theorem crosshairMidStage_pres (env : Env) (s : CMState) (x y : JSNum)
    (hd : s.isDragging = true) (hh : s.isHovered = true) :
    (crosshairMidStage env s x y).isHovered = s.isHovered ∧
    (crosshairMidStage env s x y).cursor = s.cursor ∧
    (crosshairMidStage env s x y).chart.handleScroll = s.chart.handleScroll ∧
    (crosshairMidStage env s x y).chart.handleScale = s.chart.handleScale := by
  unfold crosshairMidStage
  split
  · exact updateTempLine_pres env s x y
  · split
    · rw [handleHoverEffect_of_dragging s x y hd hh]
      exact ⟨rfl, rfl, rfl, rfl⟩
    · exact ⟨rfl, rfl, rfl, rfl⟩

/-- Helper: the drag stage of the crosshair handler leaves the hover
flag, cursor and scroll/scale options untouched. -/
theorem crosshairDragStage_pres (env : Env) (s : CMState) (x y : JSNum) :
    (crosshairDragStage env s x y).isHovered = s.isHovered ∧
    (crosshairDragStage env s x y).cursor = s.cursor ∧
    (crosshairDragStage env s x y).chart.handleScroll = s.chart.handleScroll ∧
    (crosshairDragStage env s x y).chart.handleScale = s.chart.handleScale := by
  unfold crosshairDragStage
  split
  · split
    · split
      · exact dragLine_pres env s _
      · exact ⟨rfl, rfl, rfl, rfl⟩
    · exact ⟨rfl, rfl, rfl, rfl⟩
  · exact ⟨rfl, rfl, rfl, rfl⟩

/-- C10: while `isDragging` is true, `isLineHovered` returns `true`
(leaving the state untouched) for *every* cursor position, and
consequently a crosshair move during a drag over a hovered line never
ends the hover: `isHovered` stays `true`, and the cursor and the chart's
scroll/scale options (disabled on hover entry) are untouched for the
whole drag gesture. -/
theorem C10_drag_hover_persist (env : Env) (s : CMState) (param : MouseEventParams)
    (x y : JSNum) (p1 p2 : Option LPoint)
    (hdrag : s.isDragging = true) :
    isLineHovered s x y p1 p2 = (s, true) ∧
    (s.isHovered = true →
      (handleCrosshairMove env s param).isHovered = true ∧
      (handleCrosshairMove env s param).cursor = s.cursor ∧
      (handleCrosshairMove env s param).chart.handleScroll = s.chart.handleScroll ∧
      (handleCrosshairMove env s param).chart.handleScale = s.chart.handleScale) := by
  constructor
  · simp [isLineHovered, hdrag]
  · intro hhov
    unfold handleCrosshairMove
    cases hu : s.isUpdatingLine with
    | true => rw [if_pos rfl]; exact ⟨hhov, rfl, rfl, rfl⟩
    | false =>
      rw [if_neg (by simp)]
      split
      · exact ⟨hhov, rfl, rfl, rfl⟩
      · rename_i py hpy
        split
        · exact ⟨hhov, rfl, rfl, rfl⟩
        · have hmid := crosshairMidStage_pres env
            { s with isUpdatingLine := false,
                     lastCrosshairPosition :=
                       some (resolveX s param, env.coordinateToPrice py) }
            (resolveX s param) (env.coordinateToPrice py) hdrag hhov
          have hds := crosshairDragStage_pres env
            (crosshairMidStage env
              { s with isUpdatingLine := false,
                       lastCrosshairPosition :=
                         some (resolveX s param, env.coordinateToPrice py) }
              (resolveX s param) (env.coordinateToPrice py))
            (resolveX s param) (env.coordinateToPrice py)
          exact ⟨hds.1.trans (hmid.1.trans hhov), hds.2.1.trans hmid.2.1,
            hds.2.2.1.trans hmid.2.2.1, hds.2.2.2.trans hmid.2.2.2⟩

/-- Witness for `C10_drag_hover_persist`: the concrete mid-drag hovered
state keeps its hover, cursor and interaction options across a
crosshair move. -/
theorem C10_drag_hover_persist_witness :
    isLineHovered demoDragging (jn 500) (jn 1) (some ⟨jn 100, jn 11⟩) none =
      (demoDragging, true) ∧
    (handleCrosshairMove demoEnv demoDragging ⟨some 150, JSNum.undef, some 30⟩).isHovered =
      true := by
  have h := C10_drag_hover_persist demoEnv demoDragging ⟨some 150, JSNum.undef, some 30⟩
    (jn 500) (jn 1) (some ⟨jn 100, jn 11⟩) none (by decide)
  exact ⟨h.1, (h.2 (by decide)).1⟩

/-- C6: for a drag whose crosshair coordinates are valid and whose
clamped coordinates are unchanged (every produced time/price is in
range, so `clampTime`/`clampPrice` are the identity on them), grabbing
endpoint `0` (resp. `1`) displaces only that endpoint of the snapshot by
the pointer delta, leaving the other endpoint's coordinates unchanged,
while a mid-segment grab (`selectedPoint = null`) translates both
endpoints by the same delta. -/
theorem C6_drag_deltas (env : Env) (s : CMState)
    (ax ay tx ty t0 v0 t1 v1 : ℚ)
    (hct0 : clampTime env s (jn (t0 + (tx - ax))) = jn (t0 + (tx - ax)))
    (hct0u : clampTime env s (jn t0) = jn t0)
    (hct1 : clampTime env s (jn (t1 + (tx - ax))) = jn (t1 + (tx - ax)))
    (hct1u : clampTime env s (jn t1) = jn t1)
    (hcp0 : clampPrice env (jn (v0 + (ty - ay))) = jn (v0 + (ty - ay)))
    (hcp0u : clampPrice env (jn v0) = jn v0)
    (hcp1 : clampPrice env (jn (v1 + (ty - ay))) = jn (v1 + (ty - ay)))
    (hcp1u : clampPrice env (jn v1) = jn v1) :
    (s.selectedPoint = some 0 →
      computeDragData env s (jn ax, jn ay) [⟨jn t0, jn v0⟩, ⟨jn t1, jn v1⟩] (jn tx) (jn ty) =
        [⟨jn (t0 + (tx - ax)), jn (v0 + (ty - ay))⟩, ⟨jn t1, jn v1⟩]) ∧
    (s.selectedPoint = some 1 →
      computeDragData env s (jn ax, jn ay) [⟨jn t0, jn v0⟩, ⟨jn t1, jn v1⟩] (jn tx) (jn ty) =
        [⟨jn t0, jn v0⟩, ⟨jn (t1 + (tx - ax)), jn (v1 + (ty - ay))⟩]) ∧
    (s.selectedPoint = none →
      computeDragData env s (jn ax, jn ay) [⟨jn t0, jn v0⟩, ⟨jn t1, jn v1⟩] (jn tx) (jn ty) =
        [⟨jn (t0 + (tx - ax)), jn (v0 + (ty - ay))⟩,
         ⟨jn (t1 + (tx - ax)), jn (v1 + (ty - ay))⟩]) := by
  refine ⟨?_, ?_, ?_⟩ <;> intro hsel <;> unfold computeDragData <;> rw [hsel] <;>
    simp [List.enum, List.enumFrom, jsSub, jsAdd, toNum,
      hct0, hct0u, hct1, hct1u, hcp0, hcp0u, hcp1, hcp1u]

/-- Witness for `C6_drag_deltas`: with endpoint `0` grabbed, dragging
the pointer from `(100, 10)` to `(110, 12)` moves only the first
endpoint of the snapshot `[(100, 10), (200, 20)]`, by `(+10, +2)`. -/
theorem C6_drag_deltas_witness :
    computeDragData demoEnv demoSelected0 (jn 100, jn 10)
      [⟨jn 100, jn 10⟩, ⟨jn 200, jn 20⟩] (jn 110) (jn 12) =
      [⟨jn (100 + (110 - 100)), jn (10 + (12 - 10))⟩, ⟨jn 200, jn 20⟩] :=
  (C6_drag_deltas demoEnv demoSelected0 100 10 110 12 100 10 200 20
    (by norm_num [clampTime, isValidTime, typeofNumber, jsIsNaN, jsIsFinite, jsGt,
          jsLt, toNum])
    (by norm_num [clampTime, isValidTime, typeofNumber, jsIsNaN, jsIsFinite, jsGt,
          jsLt, toNum])
    (by norm_num [clampTime, isValidTime, typeofNumber, jsIsNaN, jsIsFinite, jsGt,
          jsLt, toNum])
    (by norm_num [clampTime, isValidTime, typeofNumber, jsIsNaN, jsIsFinite, jsGt,
          jsLt, toNum])
    (by norm_num [clampPrice, isValidPrice, typeofNumber, jsIsNaN, jsIsFinite, jsGt,
          jsLt, toNum, jsMax, jsMin, jsLe, demoEnv]
        rintro (h | h) <;> exact JSNum.noConfusion h)
    (by norm_num [clampPrice, isValidPrice, typeofNumber, jsIsNaN, jsIsFinite, jsGt,
          jsLt, toNum, jsMax, jsMin, jsLe, demoEnv]
        rintro (h | h) <;> exact JSNum.noConfusion h)
    (by norm_num [clampPrice, isValidPrice, typeofNumber, jsIsNaN, jsIsFinite, jsGt,
          jsLt, toNum, jsMax, jsMin, jsLe, demoEnv]
        rintro (h | h) <;> exact JSNum.noConfusion h)
    (by norm_num [clampPrice, isValidPrice, typeofNumber, jsIsNaN, jsIsFinite, jsGt,
          jsLt, toNum, jsMax, jsMin, jsLe, demoEnv]
        rintro (h | h) <;> exact JSNum.noConfusion h)).1 rfl
